import Mathlib

/-!
Verification development for the TRX payment-analytics repository.

The Python sources are shallowly embedded: dataframe rows become structures,
boolean column masks become `Bool`-valued functions, float scores become `ℚ`
(or `ℝ` where square roots appear), and code that may raise models the
exception channel with `Except`.  Pandas/NumPy string operations are
reimplemented over `List Char` so that every definition kernel-evaluates.
-/

namespace PyStr

/-- Check whether `p` is a prefix of `s` (character lists, Python `startswith`). -/
def startsWithL : List Char → List Char → Bool
  | _, [] => true
  | [], _ :: _ => false
  | a :: as, b :: bs => a == b && startsWithL as bs

/-- Substring occurrence test over character lists: Python `in` / the
`str.contains` regex alternation reduced to one pattern. -/
def containsL : List Char → List Char → Bool
  | [], p => startsWithL [] p
  | c :: rest, p => startsWithL (c :: rest) p || containsL rest p

/-- Python `str.lower` over a character list. -/
def lowerL (l : List Char) : List Char := l.map Char.toLower

/-- Python `str.upper` over a character list. -/
def upperL (l : List Char) : List Char := l.map Char.toUpper

/-- Python `str.strip`: drop leading and trailing whitespace. -/
def trimL (l : List Char) : List Char :=
  ((l.dropWhile Char.isWhitespace).reverse.dropWhile Char.isWhitespace).reverse

end PyStr

/-! ## advanced_body_analysis.py — `AdvancedBodyAnalyzer`

`suspicious_patterns` and `risk_factors` from `AdvancedBodyAnalyzer.__init__`,
and the per-row synthetic score assembled by `_detect_synthetic_data`. -/

namespace ABA

/-- `self.suspicious_patterns['user_agent']`. -/
def suspicious_ua_patterns : List String :=
  ["python", "curl", "wget", "postman", "insomnia",
   "apache-httpclient", "okhttp", "requests"]

/-- `self.suspicious_patterns['screen_resolution']`. -/
def suspicious_resolutions : List String :=
  ["0x0", "1x1", "100x100", "800x600", "1024x768"]

/-- `self.suspicious_patterns['language']`. -/
def suspicious_languages : List String := ["en-US", "en-GB", "en-CA", "en-AU"]

/-- `self.suspicious_patterns['timezone']`. -/
def suspicious_timezones : List String :=
  ["UTC", "GMT", "America/New_York", "Europe/London"]

/-- The weight table `self.risk_factors`. -/
structure RiskFactors where
  geo_mismatch : ℚ
  suspicious_browser : ℚ
  unusual_speed : ℚ
  synthetic_data : ℚ
  time_anomaly : ℚ

/-- `self.risk_factors = {geo_mismatch: 3.0, suspicious_browser: 2.5,
unusual_speed: 2.0, synthetic_data: 4.0, time_anomaly: 1.5}`. -/
def risk_factors : RiskFactors :=
  { geo_mismatch := 3.0
    suspicious_browser := 2.5
    unusual_speed := 2.0
    synthetic_data := 4.0
    time_anomaly := 1.5 }

/-- One dataframe row as `_detect_synthetic_data` reads it.  `created_at` is
the timestamp in whole seconds since the epoch; `Option` fields model NA
cells; screen dimensions are kept as their `astype(str)` rendering. -/
structure TxRow where
  id : ℕ
  user_email : String
  created_at : ℕ
  browser_user_agent : Option String
  browser_screen_width : String
  browser_screen_height : String
  browser_language : Option String
  browser_timezone : Option String
  geo_mismatch : Bool
  amount : Option ℤ
deriving DecidableEq

/-- Which optional dataframe columns are present (`'col' in df.columns`). -/
structure Cols where
  user_agent : Bool
  resolution : Bool
  language : Bool
  timezone : Bool
  geo : Bool
  created_at : Bool
  user_email : Bool
  amount : Bool

/-- Mask `df['browser_user_agent'].str.lower().str.contains('|'.join(patterns), na=False)`. -/
def suspiciousUA (ua : Option String) : Bool :=
  match ua with
  | none => false
  | some s => suspicious_ua_patterns.any fun p => PyStr.containsL (PyStr.lowerL s.data) p.data

/-- Mask for `(width.astype(str) + 'x' + height.astype(str)).isin(suspicious_resolutions)`. -/
def suspiciousResolution (r : TxRow) : Bool :=
  suspicious_resolutions.contains (r.browser_screen_width ++ "x" ++ r.browser_screen_height)

/-- `series.isin(l)` with NA giving `False`. -/
def optIsin (o : Option String) (l : List String) : Bool :=
  match o with
  | none => false
  | some s => l.contains s

/-- `df['created_at'].dt.hour` for a timestamp in seconds. -/
def hourOfSec (t : ℕ) : ℕ := t / 3600 % 24

/-- Mask `(df['created_at'].dt.hour < 6) | (df['created_at'].dt.hour > 23)`. -/
def unusualHoursFlag (t : ℕ) : Bool := decide (hourOfSec t < 6) || decide (hourOfSec t > 23)

/-- What the time-pattern step adds to one row:
`df.loc[unusual_hours, 'synthetic_score'] += self.risk_factors['time_anomaly']`. -/
def timeAnomalyContribution (t : ℕ) : ℚ :=
  if unusualHoursFlag t then risk_factors.time_anomaly else 0

/-- `df.groupby('user_email')` membership: the rows of one user. -/
def userGroup (tbl : List TxRow) (email : String) : List TxRow :=
  tbl.filter fun r => r.user_email == email

/-- `(x.max() - x.min()).total_seconds()` over a nonempty timestamp list
(`0` on the empty list, which `groupby` never produces). -/
def spanSeconds : List ℕ → ℕ
  | [] => 0
  | t :: rest => rest.foldl max t - rest.foldl min t

/-- `time_span_hours`: the user's timestamp span divided by 3600, as an
exact rational. -/
def timeSpanHours (tbl : List TxRow) (email : String) : ℚ :=
  (spanSeconds ((userGroup tbl email).map (·.created_at)) : ℚ) / 3600

/-- `transactions_per_hour = np.where(span == 0 or isna(span), 0, count / span)`:
the single-transaction / zero-span guard of `_detect_synthetic_data`. -/
def transactionsPerHour (tbl : List TxRow) (email : String) : ℚ :=
  if timeSpanHours tbl email = 0 then 0
  else ((userGroup tbl email).length : ℚ) / timeSpanHours tbl email

/-- Membership in `high_velocity_users = user_velocity[transactions_per_hour > 5]`. -/
def highVelocity (tbl : List TxRow) (email : String) : Bool :=
  decide (transactionsPerHour tbl email > 5)

/-- What the velocity step adds to one row:
`df.loc[high_velocity_mask, 'synthetic_score'] += self.risk_factors['unusual_speed']`. -/
def velocityContribution (tbl : List TxRow) (r : TxRow) : ℚ :=
  if highVelocity tbl r.user_email then risk_factors.unusual_speed else 0

/-- `x % 100 == 0 if pd.notna(x) else False`. -/
def roundAmount : Option ℤ → Bool
  | some a => a % 100 == 0
  | none => false

/-- `suspicious_amounts = [470, 496, 1878, 1978, 2000, 2313, 2420, 5000]`. -/
def suspicious_amounts : List ℤ := [470, 496, 1878, 1978, 2000, 2313, 2420, 5000]

/-- `df['amount'].isin(suspicious_amounts)` with NA giving `False`. -/
def suspiciousAmount : Option ℤ → Bool
  | some a => suspicious_amounts.contains a
  | none => false

/-- The final `synthetic_score` of one row: `_detect_synthetic_data` starts at
`0.0` and each present-column step adds its weight to the rows its mask
selects. -/
def syntheticScore (c : Cols) (tbl : List TxRow) (r : TxRow) : ℚ :=
  (if c.user_agent && suspiciousUA r.browser_user_agent then risk_factors.suspicious_browser else 0)
  + (if c.resolution && suspiciousResolution r then risk_factors.synthetic_data else 0)
  + (if c.language && optIsin r.browser_language suspicious_languages then 0.5 else 0)
  + (if c.timezone && optIsin r.browser_timezone suspicious_timezones then 0.5 else 0)
  + (if c.geo && r.geo_mismatch then risk_factors.geo_mismatch else 0)
  + (if c.created_at then timeAnomalyContribution r.created_at else 0)
  + (if c.created_at && c.user_email then velocityContribution tbl r else 0)
  + (if c.amount && roundAmount r.amount then 0.5 else 0)
  + (if c.amount && suspiciousAmount r.amount then 1.0 else 0)

end ABA

/-! ## ipinfo_bundle_geolocator.py / fraud_detection_app.py —
`IPinfoBundleGeolocator.get_location` (the two copies are identical). -/

namespace Geo

/-- The MMDB reader: `maxminddb.Reader.get` returns a record dict or `None`
and may raise; `self.reader` is `None` when the database failed to load.
Dicts are association lists of string keys and values. -/
def MMDBGet : Type := String → Except String (Option (List (String × String)))

/-- `[(k, v)]` when the source dict has key `k`, else `[]`
(the `if 'k' in result:` pattern). -/
def optField (k : String) : Option String → List (String × String)
  | some v => [(k, v)]
  | none => []

/-- Assembly of `location_data` from a truthy MMDB `result`, key by key in
source order: country, country_code, continent, continent_code, asn,
as_name, as_domain, then the pass-through key loop. -/
def buildLocation (result : List (String × String)) : List (String × String) :=
  optField "country_name" (result.lookup "country")
  ++ optField "country" (result.lookup "country_code")
  ++ optField "continent_name" (result.lookup "continent")
  ++ optField "continent" (result.lookup "continent_code")
  ++ optField "asn" (result.lookup "asn")
  ++ optField "org" (result.lookup "as_name")
  ++ optField "as_domain" (result.lookup "as_domain")
  ++ (["city", "region", "postal_code", "latitude", "longitude", "timezone"].flatMap
      fun k => optField k (result.lookup k))

/-- `IPinfoBundleGeolocator.get_location`.  The `Except` layer is the Python
exception channel: a `.error` result would be an uncaught exception. -/
def getLocation (reader : Option MMDBGet) (ip : String) : Except String (List (String × String)) :=
  match reader with
  | none => .ok []
  | some get =>
    if ip = "" then .ok []
    else
      let ip2 := PyStr.trimL ip.data
      if ip2 == [] || PyStr.lowerL ip2 == "nan".data || PyStr.lowerL ip2 == "none".data then
        .ok []
      else
        match get (⟨ip2⟩ : String) with
        | .error _ => .ok []
        | .ok none => .ok []
        | .ok (some result) => if result = [] then .ok [] else .ok (buildLocation result)

end Geo

/-! ## fraud_detection_app.py — `RISK_THRESHOLDS` and `calculate_risk_scores` -/

namespace FD

/-- The module-level `RISK_THRESHOLDS` table. -/
structure Thresholds where
  velocity_high : ℕ
  velocity_critical : ℕ
  amount_suspicious : List ℤ
  geo_mismatch_score : ℚ
  velocity_score : ℚ
  amount_score : ℚ
  time_score : ℚ

/-- `RISK_THRESHOLDS = {velocity_high: 5, velocity_critical: 10,
amount_suspicious: [470, 1978, 1979, 2000, 5000], geo_mismatch_score: 3,
velocity_score: 2, amount_score: 2, time_score: 1}`. -/
def RISK_THRESHOLDS : Thresholds :=
  { velocity_high := 5
    velocity_critical := 10
    amount_suspicious := [470, 1978, 1979, 2000, 5000]
    geo_mismatch_score := 3
    velocity_score := 2
    amount_score := 2
    time_score := 1 }

/-- One row as `calculate_risk_scores` reads it; `created_at` in seconds,
`Option` for NA / missing values, `ip` already after the
`row.get('ip', row.get('client_ip', None))` fallback. -/
structure FdRow where
  id : ℕ
  user_email : String
  amount : Option ℤ
  created_at : ℕ
  billing_country : Option String
  ip : Option String
deriving DecidableEq

/-- Rows of one user, `df.groupby('user_email')` /
`df[df['user_email'] == user]`. -/
def userGroupFd (tbl : List FdRow) (email : String) : List FdRow :=
  tbl.filter fun r => r.user_email == email

/-- Insert into a `≤`-sorted list of timestamps. -/
def insertSorted (t : ℕ) : List ℕ → List ℕ
  | [] => [t]
  | x :: xs => if t ≤ x then t :: x :: xs else x :: insertSorted t xs

/-- `user_df.sort_values('created_at')` on the timestamp column. -/
def sortTimes (l : List ℕ) : List ℕ := l.foldr insertSorted []

/-- The rapid-succession mask for one row: among the user's sorted
timestamps, the row's timestamp follows its predecessor by under 5 minutes
(`time_diffs = diff().total_seconds() / 60; rapid_mask = time_diffs < 5`),
only applied when the user has more than one transaction. -/
def rapidFlag (tbl : List FdRow) (r : FdRow) : Bool :=
  let ts := sortTimes ((userGroupFd tbl r.user_email).map (·.created_at))
  if ts.length > 1 then
    (ts.zip ts.tail).any fun p => p.2 == r.created_at && decide (p.2 - p.1 < 5 * 60)
  else false

/-- The geographic-risk step of `calculate_risk_scores` for one row: with a
loaded reader and a truthy ip cell, look the ip up; on a truthy location
with truthy `billing_country` and `country`, add `geo_mismatch_score` when
the uppercased countries differ. -/
def geoMismatchScore (reader : Option Geo.MMDBGet) (r : FdRow) : ℚ :=
  match reader with
  | none => 0
  | some g =>
    match r.ip with
    | none => 0
    | some ip =>
      match Geo.getLocation (some g) ip with
      | .error _ => 0
      | .ok loc =>
        if loc = [] then 0
        else
          match r.billing_country, loc.lookup "country" with
          | some bc, some cc =>
            if bc ≠ "" ∧ cc ≠ "" then
              if PyStr.upperL bc.data ≠ PyStr.upperL cc.data then
                RISK_THRESHOLDS.geo_mismatch_score
              else 0
            else 0
          | _, _ => 0

/-- The final `risk_score` of one row of `calculate_risk_scores`: starts at
`0`, then the velocity, suspicious-amount, geographic and rapid-succession
steps each add their threshold score to the rows their mask selects. -/
def riskScore (reader : Option Geo.MMDBGet) (tbl : List FdRow) (r : FdRow) : ℚ :=
  (if (userGroupFd tbl r.user_email).length > RISK_THRESHOLDS.velocity_high then
      RISK_THRESHOLDS.velocity_score else 0)
  + (if (userGroupFd tbl r.user_email).length > RISK_THRESHOLDS.velocity_critical then
      RISK_THRESHOLDS.velocity_score else 0)
  + (RISK_THRESHOLDS.amount_suspicious.map fun a =>
      if r.amount = some a then RISK_THRESHOLDS.amount_score else 0).sum
  + geoMismatchScore reader r
  + (if rapidFlag tbl r then RISK_THRESHOLDS.time_score else 0)

end FD

/-! ## src/core/data_processor.py — `EnhancedDataProcessor._transform_data` -/

namespace DP

/-- The success indicator of `_transform_data` when both `status_title` and
`is_final` columns are present:
`(df['status_title'] != 'Failed') & (df['is_final'] == True)`. -/
def isSuccessful (status_title : String) (is_final : Bool) : Bool :=
  !(status_title == "Failed") && (is_final == true)

end DP

/-! ## src/services/geolocation_service.py — `GeolocationService` -/

namespace GS

/-- A location dict as a provider returns it. -/
def Loc : Type := List (String × String)

/-- One geolocation provider: `is_available()` plus a `get_location` that
returns an optional dict and may raise. -/
structure Provider where
  available : Bool
  get : String → Except String (Option Loc)

/-- `GeolocationService` state: the provider list, the per-run dictionary
cache (most recent insertion first; a cached `none` is a cached miss), and
the hit/miss counters. -/
structure Service where
  providers : List Provider
  cache : List (String × Option Loc)
  cache_hits : ℕ
  cache_misses : ℕ

/-- `GeolocationService.__init__`: empty cache, zero counters. -/
def Service.init (providers : List Provider) : Service :=
  { providers := providers, cache := [], cache_hits := 0, cache_misses := 0 }

/-- The provider loop of `get_location`: first available provider whose
lookup neither raises nor returns a falsy location wins; exceptions are
logged and skipped. -/
def tryProviders (ip : String) : List Provider → Option Loc
  | [] => none
  | p :: ps =>
    if p.available then
      match p.get ip with
      | .error _ => tryProviders ip ps
      | .ok none => tryProviders ip ps
      | .ok (some l) => if l.isEmpty then tryProviders ip ps else some l
    else tryProviders ip ps

/-- `GeolocationService.get_location`: falsy ip short-circuits; then cache
hit, else run the providers and cache the result — the found location or
the negative `None`. -/
def getLoc (s : Service) (ip : String) : Option Loc × Service :=
  if ip = "" then (none, s)
  else
    match s.cache.lookup ip with
    | some v => (v, { s with cache_hits := s.cache_hits + 1 })
    | none =>
      let r := tryProviders ip s.providers
      (r, { s with
              cache_misses := s.cache_misses + 1
              cache := (ip, r) :: s.cache })

end GS

/-! ## fraud_detection_app.py `try_parse_json` and
src/core/data_processor.py `_extract_body_data` -/

namespace PJ

/-- Parsed JSON values (the possible results of `json.loads`). -/
inductive Json where
  | null : Json
  | bool (b : Bool) : Json
  | num (q : ℚ) : Json
  | str (s : String) : Json
  | arr (xs : List Json) : Json
  | obj (fields : List (String × Json)) : Json

/-- A Python value as it can arrive in a dataframe cell: `None`, a float
`NaN`, a string, a number, or any other object carrying its `str()` form. -/
inductive PyVal where
  | vNone : PyVal
  | vNaN : PyVal
  | vStr (s : String) : PyVal
  | vNum (q : ℚ) : PyVal
  | vOther (repr : String) : PyVal

/-- Python `str(val)` for the embedded values. -/
def pyStr : PyVal → String
  | .vNone => "None"
  | .vNaN => "nan"
  | .vStr s => s
  | .vNum q => toString q
  | .vOther s => s

/-- `json.loads` is third-party: any function from strings to a parsed value
or a raised exception. -/
def Loads : Type := String → Except String Json

/-- `try_parse_json` from fraud_detection_app.py: `None`/`NaN` give `None`;
the stripped string must start with a brace or bracket; `json.loads` runs
inside `try`, every exception giving `None`. -/
def tryParseJson (loads : Loads) : PyVal → Except String (Option Json)
  | .vNone => .ok none
  | .vNaN => .ok none
  | v =>
    let s := PyStr.trimL (pyStr v).data
    if s.isEmpty then .ok none
    else if !(PyStr.startsWithL s "\x7b".data || PyStr.startsWithL s "[".data) then .ok none
    else
      match loads (⟨s⟩ : String) with
      | .ok j => .ok (some j)
      | .error _ => .ok none

/-- The dot-notation walk of `extract_from_body`: follow the keys through
nested dicts, `None` as soon as a step is not a dict or lacks the key. -/
def extractKeys : Json → List String → Option Json
  | current, [] => some current
  | current, k :: ks =>
    match current with
    | .obj fields =>
      match fields.lookup k with
      | some v => extractKeys v ks
      | none => none
    | _ => none

mutual

/-- Python `str()` of a parsed JSON value. -/
def jsonToStr : Json → String
  | .null => "None"
  | .bool b => if b then "True" else "False"
  | .num q => toString q
  | .str s => s
  | .arr xs => "[" ++ jsonListToStr xs ++ "]"
  | .obj fields => "\x7b" ++ jsonObjToStr fields ++ "\x7d"

/-- Comma-joined renditions of a JSON list. -/
def jsonListToStr : List Json → String
  | [] => ""
  | [x] => jsonToStr x
  | x :: xs => jsonToStr x ++ ", " ++ jsonListToStr xs

/-- Comma-joined renditions of a JSON object body. -/
def jsonObjToStr : List (String × Json) → String
  | [] => ""
  | [kv] => "\x27" ++ kv.1 ++ "\x27: " ++ jsonToStr kv.2
  | kv :: kvs => "\x27" ++ kv.1 ++ "\x27: " ++ jsonToStr kv.2 ++ ", " ++ jsonObjToStr kvs

end

/-- `extract_from_body` of `_extract_body_data`: a falsy or non-string body
gives `None`; `json.loads` plus the key walk run inside `try` with every
exception giving `None`; a found non-`None` value is returned as `str()`. -/
def extractFromBody (loads : Loads) (body : Option String) (path : List String) :
    Except String (Option String) :=
  match body with
  | none => .ok none
  | some b =>
    if b = "" then .ok none
    else
      match loads b with
      | .error _ => .ok none
      | .ok j =>
        match extractKeys j path with
        | none => .ok none
        | some .null => .ok none
        | some c => .ok (some (jsonToStr c))

end PJ

/-! ## advanced_body_analysis.py — `_analyze_browser_impact`

The `browser_family` group-by on `is_successful` with the normal-approximation
confidence interval and the significance flag.  Statistics live in `ℝ`
because of the square root; the `Option ℝ` layer is the float `NaN` that
pandas produces for the sample standard deviation of a single row. -/

namespace BA

/-- One row as `_analyze_browser_impact` reads it. -/
structure BRow where
  browser_family : String
  is_successful : Bool
deriving DecidableEq

/-- The rows of one `browser_family` group. -/
def groupFor (rows : List BRow) (k : String) : List BRow :=
  rows.filter fun r => r.browser_family == k

/-- `is_successful_count`: the size of the group. -/
def groupCount (rows : List BRow) (k : String) : ℕ := (groupFor rows k).length

/-- Successful rows inside the group. -/
def successCount (rows : List BRow) (k : String) : ℕ :=
  ((groupFor rows k).filter fun r => r.is_successful).length

/-- `is_successful` mean of the group as an exact rational (the group-by
`'mean'` aggregate). -/
def successRate (rows : List BRow) (k : String) : ℚ :=
  (successCount rows k : ℚ) / (groupCount rows k : ℚ)

/-- The group's `is_successful` column as reals. -/
def groupVals (rows : List BRow) (k : String) : List ℝ :=
  (groupFor rows k).map fun r => if r.is_successful then (1 : ℝ) else 0

/-- Mean of a list of reals. -/
noncomputable def rmean (l : List ℝ) : ℝ := l.sum / l.length

/-- Pandas sample standard deviation (`ddof = 1`): `NaN` (here `none`) when
the list has at most one element. -/
noncomputable def sampleStd (l : List ℝ) : Option ℝ :=
  if l.length ≤ 1 then none
  else some (Real.sqrt ((l.map fun x => (x - rmean l) ^ 2).sum / ((l.length : ℝ) - 1)))

/-- NumPy `round(x, 3)` with the half-to-even tie rule. -/
noncomputable def round3 (x : ℝ) : ℝ :=
  (((if Int.fract (x * 1000) < 1 / 2 then ⌊x * 1000⌋
     else if Int.fract (x * 1000) > 1 / 2 then ⌊x * 1000⌋ + 1
     else if Even ⌊x * 1000⌋ then ⌊x * 1000⌋ else ⌊x * 1000⌋ + 1) : ℤ) : ℝ) / 1000

/-- `overall_success_rate = df['is_successful'].mean()` (unrounded). -/
noncomputable def overallRate (rows : List BRow) : ℝ :=
  rmean (rows.map fun r => if r.is_successful then (1 : ℝ) else 0)

/-- One row of the `browser_success` summary frame: the `.agg(...).round(3)`
columns and the two derived confidence columns. -/
structure BrowserStats where
  is_successful_mean : ℝ
  is_successful_count : ℕ
  is_successful_std : Option ℝ
  confidence_interval : Option ℝ
  margin_of_error : Option ℝ

/-- The `browser_success` computation of `_analyze_browser_impact` for group
`k`: aggregate mean/count/std rounded to 3 places, then
`confidence_interval = std / sqrt(count)` and
`margin_of_error = 1.96 * confidence_interval`. -/
noncomputable def browserStats (rows : List BRow) (k : String) : BrowserStats :=
  let vals := groupVals rows k
  let sd := (sampleStd vals).map round3
  let ci := sd.map fun s => s / Real.sqrt (vals.length : ℝ)
  { is_successful_mean := round3 (rmean vals)
    is_successful_count := vals.length
    is_successful_std := sd
    confidence_interval := ci
    margin_of_error := ci.map fun c => 1.96 * c }

/-- The `statistical_significance` flag:
`np.abs(mean - overall_success_rate) > 2 * margin_of_error`, with the NumPy
rule that a comparison against `NaN` is false. -/
def statSignificant (rows : List BRow) (k : String) : Prop :=
  match (browserStats rows k).margin_of_error with
  | none => False
  | some m => |(browserStats rows k).is_successful_mean - overallRate rows| > 2 * m

end BA

/-! ## Concrete sample data used by the witness theorems -/

namespace Fix

/-- A one-transaction user row. -/
def r1 : ABA.TxRow :=
  { id := 1
    user_email := "a@b.c"
    created_at := 7200
    browser_user_agent := none
    browser_screen_width := "1920"
    browser_screen_height := "1080"
    browser_language := none
    browser_timezone := none
    geo_mismatch := false
    amount := none }

/-- A reader whose every lookup misses. -/
def g0 : Geo.MMDBGet := fun _ => .ok none

/-- An available provider that resolves every ip to one country. -/
def p1 : GS.Provider :=
  { available := true
    get := fun _ => .ok (some [("country", "US")]) }

/-- A successful Chrome row. -/
def b1 : BA.BRow := { browser_family := "Chrome", is_successful := true }

/-- A failed Chrome row. -/
def b2 : BA.BRow := { browser_family := "Chrome", is_successful := false }

end Fix

/-! ## Claim theorems -/

/-- Claim C1: for a user whose transactions in the table number exactly one,
or whose transactions span zero time, `transactions_per_hour` is defined as
0, so the `unusual_speed` weight 2.0 is not added to the row's synthetic
score: the velocity contribution is exactly 0. -/
theorem single_transaction_velocity_contributes_zero
    (tbl : List ABA.TxRow) (r : ABA.TxRow)
    (h : (ABA.userGroup tbl r.user_email).length = 1 ∨
         ABA.timeSpanHours tbl r.user_email = 0) :
    ABA.transactionsPerHour tbl r.user_email = 0 ∧
    ABA.velocityContribution tbl r = 0 := by
  have hspan : ABA.timeSpanHours tbl r.user_email = 0 := by
    rcases h with h1 | h2
    · obtain ⟨x, hx⟩ := List.length_eq_one.mp h1
      unfold ABA.timeSpanHours
      rw [hx]
      simp [ABA.spanSeconds]
    · exact h2
  have htph : ABA.transactionsPerHour tbl r.user_email = 0 := by
    unfold ABA.transactionsPerHour
    simp [hspan]
  refine ⟨htph, ?_⟩
  unfold ABA.velocityContribution ABA.highVelocity
  rw [htph]
  norm_num

/-- Witness for C1: a single-row table, evaluated at its one user. -/
theorem single_transaction_velocity_contributes_zero_witness :
    (ABA.userGroup [Fix.r1] Fix.r1.user_email).length = 1 ∧
    ABA.transactionsPerHour [Fix.r1] Fix.r1.user_email = 0 ∧
    ABA.velocityContribution [Fix.r1] Fix.r1 = 0 :=
  ⟨by decide,
   (single_transaction_velocity_contributes_zero [Fix.r1] Fix.r1 (Or.inl (by decide))).1,
   (single_transaction_velocity_contributes_zero [Fix.r1] Fix.r1 (Or.inl (by decide))).2⟩

/-- Counterexample to claim C2: a transaction at 23:00 (created_at 82800 s,
hour 23) lies outside [6,23), yet the `unusual_hours` mask of
`_detect_synthetic_data` does not fire, because the code tests
`hour > 23`, which no `dt.hour` value satisfies. -/
theorem time_anomaly_hour23_counterexample :
    ¬ (ABA.unusualHoursFlag 82800 = true ↔
       (ABA.hourOfSec 82800 < 6 ∨ 23 ≤ ABA.hourOfSec 82800)) := by
  decide

/-- Claim C2 as amended: the `time_anomaly` indicator fires iff the
transaction hour is below 6 (the `hour > 23` disjunct of the mask can never
hold since `dt.hour < 24`), and a firing row receives exactly weight 1.5. -/
theorem time_anomaly_iff_hour_below_six (t : ℕ) :
    (ABA.unusualHoursFlag t = true ↔ ABA.hourOfSec t < 6) ∧
    ABA.timeAnomalyContribution t =
      (if ABA.hourOfSec t < 6 then ABA.risk_factors.time_anomaly else 0) := by
  have hlt : ABA.hourOfSec t < 24 := Nat.mod_lt _ (by norm_num)
  constructor
  · unfold ABA.unusualHoursFlag
    simp only [Bool.or_eq_true, decide_eq_true_eq]
    omega
  · unfold ABA.timeAnomalyContribution ABA.unusualHoursFlag
    by_cases h : ABA.hourOfSec t < 6
    · simp [h]
    · have h23 : ¬ (ABA.hourOfSec t > 23) := by omega
      simp [h, h23]

/-- Claim C7: with `status_title` and `is_final` columns present,
`is_successful` is exactly `(status_title != 'Failed') & (is_final == True)`;
in particular a `Failed` status forces `is_successful = False`. -/
theorem is_successful_pure_in_status (st : String) (fin : Bool) :
    (DP.isSuccessful st fin = true ↔ (st ≠ "Failed" ∧ fin = true)) ∧
    (st = "Failed" → DP.isSuccessful st fin = false) := by
  constructor
  · simp [DP.isSuccessful]
  · intro h
    simp [DP.isSuccessful, h]

/-- Witness for C7 at the `Failed` status. -/
theorem is_successful_pure_in_status_witness :
    DP.isSuccessful "Failed" true = false :=
  (is_successful_pure_in_status "Failed" true).2 rfl

/-- The geographic-risk step never subtracts: every branch adds `3` or `0`. -/
lemma geoMismatchScore_nonneg (reader : Option Geo.MMDBGet) (r : FD.FdRow) :
    0 ≤ FD.geoMismatchScore reader r := by
  unfold FD.geoMismatchScore
  repeat' split
  all_goals norm_num [FD.RISK_THRESHOLDS]

/-- Claim C3: both per-row scores are sums of non-negative weighted
indicator terms starting from 0, so `synthetic_score` (body analyzer) and
`risk_score` (fraud-detection scorer) are always at least 0. -/
theorem risk_scores_nonneg (c : ABA.Cols) (tbl : List ABA.TxRow) (r : ABA.TxRow)
    (reader : Option Geo.MMDBGet) (tbl2 : List FD.FdRow) (r2 : FD.FdRow) :
    0 ≤ ABA.syntheticScore c tbl r ∧ 0 ≤ FD.riskScore reader tbl2 r2 := by
  constructor
  · unfold ABA.syntheticScore ABA.velocityContribution ABA.timeAnomalyContribution
    repeat' apply add_nonneg
    all_goals
      repeat' split
      all_goals norm_num [ABA.risk_factors]
  · unfold FD.riskScore
    refine add_nonneg (add_nonneg (add_nonneg (add_nonneg ?_ ?_) ?_) ?_) ?_
    · split <;> norm_num [FD.RISK_THRESHOLDS]
    · split <;> norm_num [FD.RISK_THRESHOLDS]
    · apply List.sum_nonneg
      intro x hx
      obtain ⟨a, _, rfl⟩ := List.mem_map.mp hx
      split <;> norm_num [FD.RISK_THRESHOLDS]
    · exact geoMismatchScore_nonneg reader r2
    · split <;> norm_num [FD.RISK_THRESHOLDS]

/-- Claim C4: the JSON helpers catch every parse failure: `try_parse_json`
and the body-field extractor always return normally (`.ok`, the parsed
object / extracted string or `None`), for every input value and every
behaviour of `json.loads`. -/
theorem json_parsing_total (loads : PJ.Loads) (val : PJ.PyVal)
    (body : Option String) (path : List String) :
    (∃ r, PJ.tryParseJson loads val = .ok r) ∧
    (∃ r2, PJ.extractFromBody loads body path = .ok r2) := by
  constructor
  · cases val with
    | vNone => exact ⟨none, rfl⟩
    | vNaN => exact ⟨none, rfl⟩
    | vStr s =>
      unfold PJ.tryParseJson
      dsimp only
      repeat' split
      all_goals exact ⟨_, rfl⟩
    | vNum q =>
      unfold PJ.tryParseJson
      dsimp only
      repeat' split
      all_goals exact ⟨_, rfl⟩
    | vOther s =>
      unfold PJ.tryParseJson
      dsimp only
      repeat' split
      all_goals exact ⟨_, rfl⟩
  · cases body with
    | none => exact ⟨none, rfl⟩
    | some b =>
      unfold PJ.extractFromBody
      repeat' split
      all_goals exact ⟨_, rfl⟩

/-- Claim C5: `get_location` never raises, and yields the empty dict in
every failure case — reader absent; input stripping to empty or to
`nan`/`none`; the database lookup missing the ip (or giving a falsy
record); the lookup raising (caught). -/
theorem get_location_total_and_empty_on_failure
    (reader : Option Geo.MMDBGet) (ip : String) :
    (∃ d, Geo.getLocation reader ip = .ok d) ∧
    (reader = none → Geo.getLocation reader ip = .ok []) ∧
    ((PyStr.trimL ip.data = [] ∨
      PyStr.lowerL (PyStr.trimL ip.data) = "nan".data ∨
      PyStr.lowerL (PyStr.trimL ip.data) = "none".data) →
      Geo.getLocation reader ip = .ok []) ∧
    (∀ g, reader = some g → g (⟨PyStr.trimL ip.data⟩ : String) = .ok none →
      Geo.getLocation reader ip = .ok []) ∧
    (∀ g e, reader = some g → g (⟨PyStr.trimL ip.data⟩ : String) = .error e →
      Geo.getLocation reader ip = .ok []) := by
  refine ⟨?_, ?_, ?_, ?_, ?_⟩
  · cases reader with
    | none => exact ⟨[], rfl⟩
    | some g =>
      unfold Geo.getLocation
      dsimp only
      repeat' split
      all_goals exact ⟨_, rfl⟩
  · intro h
    rw [h]
    rfl
  · intro h
    cases reader with
    | none => rfl
    | some g =>
      unfold Geo.getLocation
      dsimp only
      by_cases hip : ip = ""
      · simp [hip]
      · rw [if_neg hip]
        have hc : (PyStr.trimL ip.data == [] ||
            PyStr.lowerL (PyStr.trimL ip.data) == "nan".data ||
            PyStr.lowerL (PyStr.trimL ip.data) == "none".data) = true := by
          rcases h with h | h | h <;> simp [h]
        simp only [hc, if_true]
  · intro g hg hget
    subst hg
    unfold Geo.getLocation
    dsimp only
    by_cases hip : ip = ""
    · simp [hip]
    · rw [if_neg hip]
      split
      · rfl
      · rw [hget]
  · intro g e hg hget
    subst hg
    unfold Geo.getLocation
    dsimp only
    by_cases hip : ip = ""
    · simp [hip]
    · rw [if_neg hip]
      split
      · rfl
      · rw [hget]

/-- Witness for C5: an absent reader, and an all-miss reader fed a value
that strips and lowercases to `nan`. -/
theorem get_location_total_and_empty_on_failure_witness :
    Geo.getLocation none "8.8.8.8" = .ok [] ∧
    Geo.getLocation (some Fix.g0) " NaN " = .ok [] :=
  ⟨(get_location_total_and_empty_on_failure none "8.8.8.8").2.1 rfl,
   (get_location_total_and_empty_on_failure (some Fix.g0) " NaN ").2.2.1
     (Or.inr (Or.inl (by decide)))⟩

/-- Claim C6: within one run, a second `GeolocationService.get_location`
call with the same ip returns exactly the first call's result, served from
the per-run dictionary cache. -/
theorem geolocation_service_idempotent (s : GS.Service) (ip : String) :
    (GS.getLoc (GS.getLoc s ip).2 ip).1 = (GS.getLoc s ip).1 := by
  by_cases hip : ip = ""
  · simp [GS.getLoc, hip]
  · unfold GS.getLoc
    rw [if_neg hip, if_neg hip]
    cases hcl : s.cache.lookup ip with
    | some v => simp [hcl, if_neg hip]
    | none =>
      simp only [hcl]
      simp [List.lookup]

/-- Claim C10: starting from a fresh service, if the first lookup of a
nonempty ip misses every provider (result `None`), the miss itself is
cached, and every later call for that ip — whatever the provider list has
become — answers `None` from the cache. -/
theorem geolocation_service_caches_misses
    (ps ps2 : List GS.Provider) (ip : String) (h : ip ≠ "")
    (h2 : (GS.getLoc (GS.Service.init ps) ip).1 = none) :
    ((GS.getLoc (GS.Service.init ps) ip).2.cache.lookup ip = some none) ∧
    (GS.getLoc
      { (GS.getLoc (GS.Service.init ps) ip).2 with providers := ps2 } ip).1 = none := by
  have hstep : GS.getLoc (GS.Service.init ps) ip =
      (GS.tryProviders ip ps,
       { GS.Service.init ps with
           cache_misses := 1
           cache := [(ip, GS.tryProviders ip ps)] }) := by
    unfold GS.getLoc
    rw [if_neg h]
    rfl
  have hr : GS.tryProviders ip ps = none := by
    rw [hstep] at h2
    exact h2
  rw [hstep, hr]
  constructor
  · simp [List.lookup]
  · unfold GS.getLoc
    rw [if_neg h]
    simp [List.lookup]

/-- Witness for C10: no providers on the first call, an always-answering
provider afterwards; the miss is still served from the cache. -/
theorem geolocation_service_caches_misses_witness :
    ((GS.getLoc (GS.Service.init []) "1.2.3.4").2.cache.lookup "1.2.3.4" = some none) ∧
    (GS.getLoc
      { (GS.getLoc (GS.Service.init []) "1.2.3.4").2 with providers := [Fix.p1] }
      "1.2.3.4").1 = none :=
  geolocation_service_caches_misses [] [Fix.p1] "1.2.3.4" (by decide) rfl

/-- Claim C8: the group-by success-rate and count are order-independent:
any permutation of the input rows leaves every group's count and
`is_successful` mean unchanged. -/
theorem groupby_order_independent (rows rows2 : List BA.BRow) (k : String)
    (h : rows.Perm rows2) :
    BA.groupCount rows k = BA.groupCount rows2 k ∧
    BA.successRate rows k = BA.successRate rows2 k := by
  have hg : (BA.groupFor rows k).Perm (BA.groupFor rows2 k) := h.filter _
  have hc : BA.groupCount rows k = BA.groupCount rows2 k := hg.length_eq
  have hs : BA.successCount rows k = BA.successCount rows2 k := (hg.filter _).length_eq
  refine ⟨hc, ?_⟩
  unfold BA.successRate
  rw [hc, hs]

/-- Witness for C8: swapping a two-row table. -/
theorem groupby_order_independent_witness :
    BA.groupCount [Fix.b1, Fix.b2] "Chrome" = BA.groupCount [Fix.b2, Fix.b1] "Chrome" ∧
    BA.successRate [Fix.b1, Fix.b2] "Chrome" = BA.successRate [Fix.b2, Fix.b1] "Chrome" :=
  groupby_order_independent [Fix.b1, Fix.b2] [Fix.b2, Fix.b1] "Chrome"
    (List.Perm.swap Fix.b2 Fix.b1 [])

/-- Claim C9: in the `browser_success` summary, the margin of error is
`1.96 × std / sqrt(count)` (with pandas NaN — `none` — for the std of a
singleton group), and the significance flag holds iff the distance between
the group mean and the overall success mean exceeds twice that margin. -/
theorem browser_margin_and_significance (rows : List BA.BRow) (k : String) :
    (BA.browserStats rows k).margin_of_error =
      (BA.browserStats rows k).is_successful_std.map
        (fun s => 1.96 * (s / Real.sqrt ((BA.browserStats rows k).is_successful_count : ℝ))) ∧
    (BA.statSignificant rows k ↔
      ∃ m, (BA.browserStats rows k).margin_of_error = some m ∧
        |(BA.browserStats rows k).is_successful_mean - BA.overallRate rows| > 2 * m) := by
  constructor
  · unfold BA.browserStats
    cases h : BA.sampleStd (BA.groupVals rows k) <;> simp [h]
  · unfold BA.statSignificant
    cases hm : (BA.browserStats rows k).margin_of_error <;> simp [hm]
